import Mathlib

/-!
Shallow embedding of `src/network-helper.ts` from vscode-graphql-notebook.

The module executes GraphQL operations against a remote endpoint:
it classifies the operation definitions of a parsed document, inlines
fragment dependencies into the operation text, builds one urql client per
classified operation, and streams results to an update callback,
formatting payloads and errors as pretty-printed JSON.

JavaScript runtime values that flow through the result consumer are
modelled by `JsValue`; `JSON.stringify(v, null, 2)` is modelled by
`jsonStringifyPretty`, which follows the ECMAScript serialization
algorithm for the 2-space gap (undefined members omitted, undefined array
elements printed as null).
-/

namespace NetworkHelper

/-- A JavaScript value as it appears in operation results: `undef` models
the JavaScript value `undefined`, which JSON serialization drops from
objects and prints as null inside arrays. -/
inductive JsValue where
  | undef : JsValue
  | null : JsValue
  | bool (b : Bool) : JsValue
  | num (n : Int) : JsValue
  | str (s : String) : JsValue
  | arr (elems : List JsValue) : JsValue
  | obj (fields : List (String × JsValue)) : JsValue

/-- JavaScript truthiness of a value, as used by the `if (errors || data)`
and `if (error.networkError)` guards in `buildSubscribeConsumer`. -/
def JsValue.truthy : JsValue → Bool
  | .undef => false
  | .null => false
  | .bool b => b
  | .num n => n != 0
  | .str s => s != ""
  | .arr _ => true
  | .obj _ => true

/-- Lower-case hexadecimal digit, for control-character escapes. -/
def hexDigit (n : Nat) : String :=
  String.singleton (Char.ofNat (if n < 10 then 48 + n else 87 + n))

/-- Escape one character the way ECMAScript QuoteJSONString does. -/
def escapeJsonChar (c : Char) : String :=
  if c = '"' then "\\\""
  else if c = '\\' then "\\\\"
  else if c = '\x08' then "\\b"
  else if c = '\t' then "\\t"
  else if c = '\n' then "\\n"
  else if c = '\x0c' then "\\f"
  else if c = '\r' then "\\r"
  else if c.toNat < 32 then "\\u00" ++ hexDigit (c.toNat / 16) ++ hexDigit (c.toNat % 16)
  else String.singleton c

/-- Quote a string as a JSON string literal. -/
def quoteJson (s : String) : String :=
  "\"" ++ String.join (s.data.map escapeJsonChar) ++ "\""

/-- A run of `n` spaces, for indentation. -/
def spaces (n : Nat) : String :=
  String.mk (List.replicate n ' ')

mutual

/-- Model of `JSON.stringify(v, null, 2)` at nesting depth `ind`: `none` models the
JavaScript result `undefined`. -/
def stringifyVal : Nat → JsValue → Option String
  | _, .undef => none
  | _, .null => some "null"
  | _, .bool b => some (if b then "true" else "false")
  | _, .num n => some (toString n)
  | _, .str s => some (quoteJson s)
  | ind, .arr xs =>
    let items := stringifyItems (ind + 1) xs
    some (if items.isEmpty then "[]"
      else "[\n" ++
        String.intercalate ",\n" (items.map (fun m => spaces (2 * (ind + 1)) ++ m)) ++
        "\n" ++ spaces (2 * ind) ++ "]")
  | ind, .obj fs =>
    let members := stringifyFields (ind + 1) fs
    some (if members.isEmpty then "\x7b\x7d"
      else "\x7b\n" ++
        String.intercalate ",\n" (members.map (fun m => spaces (2 * (ind + 1)) ++ m)) ++
        "\n" ++ spaces (2 * ind) ++ "\x7d")

/-- Serialized array elements: an undefined element prints as null. -/
def stringifyItems : Nat → List JsValue → List String
  | _, [] => []
  | ind, x :: xs => ((stringifyVal ind x).getD "null") :: stringifyItems ind xs

/-- Serialized object members: a member whose value serializes to
undefined is omitted. -/
def stringifyFields : Nat → List (String × JsValue) → List String
  | _, [] => []
  | ind, (k, v) :: fs =>
    match stringifyVal ind v with
    | none => stringifyFields ind fs
    | some s => (quoteJson k ++ ": " ++ s) :: stringifyFields ind fs

end

/-- Top-level `JSON.stringify(v, null, 2)`. -/
def jsonStringifyPretty (v : JsValue) : Option String :=
  stringifyVal 0 v

/-- The `CombinedError` shape destructured by `buildSubscribeConsumer`:
`graphQLErrors` is the (possibly empty) array of GraphQL errors, and
`networkError`, when present, is modelled by its `toString()` form, which
is all the consumer uses. -/
structure CombinedError where
  graphQLErrors : List JsValue
  networkError : Option String

/-- A result event as destructured by the consumer: `data`, `errors`, and
an optional top-level `error` object.  An absent field is `JsValue.undef`. -/
structure OperationResult where
  data : JsValue
  errors : JsValue
  error : Option CombinedError

/-- The source's `formatData`: `JSON.stringify(\x7bdata, errors\x7d, null, 2)`. -/
def formatData (result : OperationResult) : String :=
  (jsonStringifyPretty (.obj [("data", result.data), ("errors", result.errors)])).getD
    "undefined"

/-- The consumer `buildSubscribeConsumer cb operation` applied to one result event,
modelled as the list of `(payload, operation)` callback invocations the
consumer makes for that event, in order. -/
def buildSubscribeConsumer (operation : String) (result : OperationResult) :
    List (String × String) :=
  (if result.errors.truthy || result.data.truthy then
    [(formatData result, operation)]
  else []) ++
  match result.error with
  | none => []
  | some error =>
    (if error.graphQLErrors.length > 0 then
      [((jsonStringifyPretty (.obj [("errors", .arr error.graphQLErrors)])).getD
          "undefined",
        operation)]
    else []) ++
    match error.networkError with
    | some e => [(e, operation)]
    | none => []

/-- A fragment dependency as returned by `getFragmentDependenciesForAST`:
only its source text matters to this module. -/
structure FragmentInfo where
  content : String

/-- The fragment-inlining loop of `executeOperation`:
`fragmentInfos.forEach(fi => literal.content = fi.content + "\n" + literal.content)`. -/
def inlineFragments (fragmentInfos : List FragmentInfo) (content : String) : String :=
  fragmentInfos.foldl (fun c fi => fi.content ++ "\n" ++ c) content

/-- A top-level definition of a parsed GraphQL document: an operation
definition carries its operation kind (query / mutation / subscription)
and optional name; the only other top-level definitions are fragment
definitions. -/
inductive DefinitionNode where
  | operationDefinition (operation : String) (name : Option String)
  | fragmentDefinition (name : String)

/-- A parsed document: its ordered list of top-level definitions. -/
structure DocumentNode where
  definitions : List DefinitionNode

/-- The classification step of `executeOperation`: `visit` with an
`OperationDefinition` handler pushing `node.operation` onto one array and
`node.name?.value || ""` onto another, traversing definitions in document
order. -/
def classifyOperations (ast : DocumentNode) : List String × List String :=
  ast.definitions.foldl
    (fun acc d =>
      match d with
      | .operationDefinition op name => (acc.1 ++ [op], acc.2 ++ [name.getD ""])
      | .fragmentDefinition _ => acc)
    ([], [])

/-- Spec-side classifier, written from the spec's words: the ordered list
of (kind, name) pairs of the top-level operation definitions. -/
def specClassifiedOperations (ast : DocumentNode) : List (String × String) :=
  ast.definitions.filterMap fun d =>
    match d with
    | .operationDefinition op name => some (op, name.getD "")
    | .fragmentDefinition _ => none

/-- The number N of top-level operation definitions of a document. -/
def countOperationDefinitions (ast : DocumentNode) : Nat :=
  (ast.definitions.filter fun d =>
    match d with
    | .operationDefinition _ _ => true
    | .fragmentDefinition _ => false).length

/-- A configured endpoint: URL and headers. -/
structure Endpoint where
  url : String
  headers : List (String × String)
deriving DecidableEq

/-- The `https.Agent` built by `buildClient`, recording the
`rejectUnauthorized` setting it was constructed with. -/
structure AgentConfig where
  rejectUnauthorized : Bool
deriving DecidableEq

/-- The WebSocket sub-client configuration created for subscriptions. -/
structure WSClientConfig where
  url : String
  connectionAckWaitTimeout : Nat
deriving DecidableEq

/-- The `fetchOptions` passed to `createClient`. -/
structure FetchOptions where
  headers : List (String × String)
  agent : Option AgentConfig
deriving DecidableEq

/-- The urql client configuration produced by `buildClient`: base URL,
fetch options, and the optional WebSocket sub-client added via the
subscription exchange. -/
structure UrqlClientConfig where
  url : String
  fetchOptions : FetchOptions
  wsClient : Option WSClientConfig
deriving DecidableEq

/-- Model of `endpoint.url.replace(/^http/, "ws")`: when the character sequence
starts with `http`, those four characters are replaced by `ws`; otherwise
the string is unchanged. -/
def rewriteSchemeToWs (url : String) : String :=
  if "http".data.isPrefixOf url.data then "ws" ++ String.mk (url.data.drop 4)
  else url

/-- Model of `new URL(url).protocol` for an absolute URL: the scheme before the
first colon, lower-cased, with a trailing colon. -/
def urlProtocol (url : String) : String :=
  String.mk ((url.data.takeWhile (fun c => c ≠ ':')).map Char.toLower) ++ ":"

/-- The source's `buildClient`: reads the process-wide
`rejectUnauthorized` setting, builds an `https.Agent` with it, adds a
WebSocket sub-client (3000 ms connection-ack timeout, http→ws rewritten
URL) exactly when the operation is a subscription, and attaches the agent
to the fetch options exactly when the endpoint URL's protocol is
`https:`. -/
def buildClient (operation : String) (endpoint : Endpoint)
    (rejectUnauthorized : Bool) : UrqlClientConfig :=
  let agent : AgentConfig := { rejectUnauthorized := rejectUnauthorized }
  let wsClient : Option WSClientConfig :=
    if operation == "subscription" then
      some { url := rewriteSchemeToWs endpoint.url, connectionAckWaitTimeout := 3000 }
    else none
  { url := endpoint.url
    fetchOptions :=
      { headers := endpoint.headers
        agent := if urlProtocol endpoint.url == "https:" then some agent else none }
    wsClient := wsClient }

/-- Outcome of one iteration of the `Promise.all` loop in
`executeOperation`: either the operation's client was built and its
stream subscribed, or the exception was caught and
`console.error("error executing operation")` ran. -/
inductive OpOutcome where
  | dispatched : OpOutcome
  | errorLogged : OpOutcome
deriving DecidableEq

/-- One iteration of the per-operation loop: `buildAndStart` models the
fallible body (`buildClient` plus `pipe`/`subscribe`); the
`try ... catch` makes the iteration total. -/
def runOperation (buildAndStart : String → Except String Unit)
    (operation : String) : OpOutcome :=
  match buildAndStart operation with
  | .ok _ => .dispatched
  | .error _ => .errorLogged

/-- The `Promise.all(operationTypes.map(...))` dispatch of
`executeOperation`: the returned promise, carrying the per-operation
outcomes.  Each mapped promise resolves because its body is wrapped in
`try ... catch`, so the combined promise is always `Except.ok`. -/
def executeOperation (buildAndStart : String → Except String Unit)
    (operationTypes : List String) : Except String (List OpOutcome) :=
  .ok (operationTypes.map (runOperation buildAndStart))

/-- The sequence of urql clients `executeOperation` builds on its success
path: one fresh `buildClient` per classified operation kind, in document
order. -/
def executionClients (ast : DocumentNode) (endpoint : Endpoint)
    (rejectUnauthorized : Bool) : List UrqlClientConfig :=
  (classifyOperations ast).1.map (fun op => buildClient op endpoint rejectUnauthorized)

end NetworkHelper

namespace NetworkHelper

/-- C4: for every result event whose `data` and/or `errors` field is
present (truthy) and which carries no top-level `error` object, the
consumer built by `buildSubscribeConsumer` invokes the update callback
exactly once, with the 2-space pretty-printed JSON serialization of
`\x7bdata, errors\x7d` as payload, tagged with the originating operation kind. -/
theorem consumer_data_branch_single_call (op : String) (data errs : JsValue)
    (h : (errs.truthy || data.truthy) = true) :
    buildSubscribeConsumer op { data := data, errors := errs, error := none } =
      [((jsonStringifyPretty (.obj [("data", data), ("errors", errs)])).getD
          "undefined",
        op)] := by
  simp [buildSubscribeConsumer, formatData, h]

/-- C4 witness: the event `\x7bdata: \x7bfoo: 1\x7d, errors: undefined\x7d` produces
exactly one callback call, with the pinned JSON payload, tagged `query`. -/
theorem consumer_data_branch_single_call_witness :
    buildSubscribeConsumer "query"
        { data := .obj [("foo", .num 1)], errors := .undef, error := none } =
      [("\x7b\n  \"data\": \x7b\n    \"foo\": 1\n  \x7d\n\x7d", "query")] := by
  rw [consumer_data_branch_single_call "query" (.obj [("foo", .num 1)]) .undef
    (by decide)]
  rfl

/-- C5: for every result event with falsy `data` and `errors` whose
top-level `error` holds exactly one GraphQL error and no network error,
the consumer invokes the update callback exactly once, with the 2-space
pretty-printed JSON of `\x7berrors: [err1]\x7d`, tagged with the operation
kind. -/
theorem consumer_graphql_error_single_call (op : String) (data errs e : JsValue)
    (hd : data.truthy = false) (he : errs.truthy = false) :
    buildSubscribeConsumer op
        { data := data, errors := errs,
          error := some { graphQLErrors := [e], networkError := none } } =
      [((jsonStringifyPretty (.obj [("errors", .arr [e])])).getD "undefined",
        op)] := by
  simp [buildSubscribeConsumer, hd, he]

/-- C5 witness: the event
`\x7berror: \x7bgraphQLErrors: [\x7bmessage: "boom"\x7d], networkError: null\x7d\x7d`
yields exactly one callback call with the pinned JSON payload. -/
theorem consumer_graphql_error_single_call_witness :
    buildSubscribeConsumer "query"
        { data := .undef, errors := .undef,
          error := some
            { graphQLErrors := [.obj [("message", .str "boom")]],
              networkError := none } } =
      [("\x7b\n  \"errors\": [\n    \x7b\n      \"message\": \"boom\"\n    \x7d\n  ]\n\x7d",
        "query")] := by
  rw [consumer_graphql_error_single_call "query" .undef .undef
    (.obj [("message", .str "boom")]) (by decide) (by decide)]
  rfl

/-- C6: for every result event with falsy `data` and `errors` whose
top-level `error` has an empty `graphQLErrors` array and a network error,
the consumer invokes the update callback exactly once, with the network
error's string representation as payload, tagged with the operation
kind. -/
theorem consumer_network_error_single_call (op : String) (data errs : JsValue)
    (s : String) (hd : data.truthy = false) (he : errs.truthy = false) :
    buildSubscribeConsumer op
        { data := data, errors := errs,
          error := some { graphQLErrors := [], networkError := some s } } =
      [(s, op)] := by
  simp [buildSubscribeConsumer, hd, he]

/-- C6 witness: the event
`\x7berror: \x7bgraphQLErrors: [], networkError: new Error("x")\x7d\x7d` yields
exactly one callback call with payload `"Error: x"`. -/
theorem consumer_network_error_single_call_witness :
    buildSubscribeConsumer "subscription"
        { data := .undef, errors := .undef,
          error := some { graphQLErrors := [], networkError := some "Error: x" } } =
      [("Error: x", "subscription")] :=
  consumer_network_error_single_call "subscription" .undef .undef ("Error: x")
    (by decide) (by decide)

/-- C10: for every result event whose `data` and `errors` fields are both
falsy and which carries no top-level `error` object, the consumer invokes
the update callback zero times: the event is silently dropped. -/
theorem consumer_drops_falsy_events (op : String) (data errs : JsValue)
    (hd : data.truthy = false) (he : errs.truthy = false) :
    buildSubscribeConsumer op { data := data, errors := errs, error := none } =
      [] := by
  simp [buildSubscribeConsumer, hd, he]

/-- C10 witness: the event `\x7bdata: null\x7d` produces no callback call. -/
theorem consumer_drops_falsy_events_witness :
    buildSubscribeConsumer "query"
        { data := .null, errors := .undef, error := none } = [] :=
  consumer_drops_falsy_events "query" .null .undef (by decide) (by decide)

/-- The classification fold, started from arbitrary accumulators, appends
the kinds and names of the operation definitions in document order. -/
theorem classifyOperations_go (defs : List DefinitionNode) (k n : List String) :
    defs.foldl
        (fun acc d =>
          match d with
          | .operationDefinition op name => (acc.1 ++ [op], acc.2 ++ [name.getD ""])
          | .fragmentDefinition _ => acc)
        (k, n) =
      (k ++ (specClassifiedOperations ⟨defs⟩).map Prod.fst,
       n ++ (specClassifiedOperations ⟨defs⟩).map Prod.snd) := by
  induction defs generalizing k n with
  | nil => simp [specClassifiedOperations]
  | cons d ds ih =>
    cases d with
    | operationDefinition op name =>
      simp [specClassifiedOperations, List.filterMap_cons] at ih ⊢
      rw [ih]
      simp
    | fragmentDefinition name =>
      simp [specClassifiedOperations, List.filterMap_cons] at ih ⊢
      rw [ih]

/-- The classifier `classifyOperations` computes the two projections of the spec-side
classifier. -/
theorem classifyOperations_eq (ast : DocumentNode) :
    classifyOperations ast =
      ((specClassifiedOperations ast).map Prod.fst,
       (specClassifiedOperations ast).map Prod.snd) := by
  obtain ⟨defs⟩ := ast
  simpa [classifyOperations] using classifyOperations_go defs [] []

/-- The spec-side classifier returns one pair per operation definition. -/
theorem specClassifiedOperations_length (ast : DocumentNode) :
    (specClassifiedOperations ast).length = countOperationDefinitions ast := by
  obtain ⟨defs⟩ := ast
  induction defs with
  | nil => rfl
  | cons d ds ih =>
    cases d with
    | operationDefinition op name =>
      simpa [specClassifiedOperations, countOperationDefinitions,
        List.filterMap_cons, List.filter_cons] using ih
    | fragmentDefinition name =>
      simpa [specClassifiedOperations, countOperationDefinitions,
        List.filterMap_cons, List.filter_cons] using ih

/-- C2: the classification step produces exactly N (kind, name) pairs for
a document with N top-level operation definitions, in document order: the
two pushed arrays zip to the spec-side list of (kind, name) pairs, and
each has length N. -/
theorem classifier_pairs_in_document_order (ast : DocumentNode) :
    (classifyOperations ast).1.zip (classifyOperations ast).2 =
      specClassifiedOperations ast ∧
    (classifyOperations ast).1.length = countOperationDefinitions ast ∧
    (classifyOperations ast).2.length = countOperationDefinitions ast := by
  rw [classifyOperations_eq]
  refine ⟨?_, ?_, ?_⟩
  · rw [List.zip_map']
    simp
  · simpa using specClassifiedOperations_length ast
  · simpa using specClassifiedOperations_length ast

/-- Inlining into any content equals the block of fragment texts the loop
builds over empty content, prepended to that content. -/
theorem inlineFragments_shift (fis : List FragmentInfo) :
    ∀ c : String, inlineFragments fis c = inlineFragments fis "" ++ c := by
  induction fis with
  | nil =>
    intro c
    simp [inlineFragments]
  | cons f fs ih =>
    intro c
    show inlineFragments fs (f.content ++ "\n" ++ c) =
      inlineFragments fs (f.content ++ "\n" ++ "") ++ c
    rw [ih (f.content ++ "\n" ++ c), ih (f.content ++ "\n" ++ "")]
    simp [String.append_assoc]

/-- Each inlining pass grows the content by the total size of the
fragment texts plus one newline per fragment. -/
theorem inlineFragments_length (fis : List FragmentInfo) :
    ∀ c : String, (inlineFragments fis c).length =
      (fis.map (fun fi => fi.content.length + 1)).sum + c.length := by
  induction fis with
  | nil =>
    intro c
    simp [inlineFragments]
  | cons f fs ih =>
    intro c
    show (inlineFragments fs (f.content ++ "\n" ++ c)).length = _
    rw [ih (f.content ++ "\n" ++ c)]
    simp [String.length_append]
    have hnl : ("\n" : String).length = 1 := rfl
    omega

/-- C3: fragment inlining prepends the fragment texts without
deduplication, so re-running it on already-inlined content prepends every
fragment's text again; on a non-empty fragment list it is therefore not
idempotent on the content string. -/
theorem inlineFragments_not_idempotent (fis : List FragmentInfo) (c : String)
    (h : fis ≠ []) :
    inlineFragments fis (inlineFragments fis c) =
      inlineFragments fis "" ++ inlineFragments fis c ∧
    inlineFragments fis (inlineFragments fis c) ≠ inlineFragments fis c := by
  refine ⟨inlineFragments_shift fis _, fun heq => ?_⟩
  have hlen := congrArg String.length heq
  rw [inlineFragments_length fis (inlineFragments fis c),
    inlineFragments_length fis c] at hlen
  cases fis with
  | nil => exact h rfl
  | cons f fs => simp at hlen

/-- C3 witness: one inlining pass over a single fragment turns `query Q`
into the fragment text plus a newline plus the query; a second pass is
not a no-op. -/
theorem inlineFragments_not_idempotent_witness :
    inlineFragments [⟨"fragment F on T"⟩]
        (inlineFragments [⟨"fragment F on T"⟩] "query Q") ≠
      inlineFragments [⟨"fragment F on T"⟩] "query Q" :=
  (inlineFragments_not_idempotent [⟨"fragment F on T"⟩] "query Q"
    (List.cons_ne_nil _ _)).2

/-- C7: for a subscription operation, `buildClient` adds a WebSocket
sub-client with a 3000 ms connection-ack timeout whose URL is the
endpoint URL with its leading `http` rewritten to `ws` (so `http://...`
becomes `ws://...` and `https://...` becomes `wss://...`); for any other
operation kind no WebSocket sub-client is added. -/
theorem buildClient_ws_subclient :
    (∀ (rest : String) (headers : List (String × String)) (ru : Bool),
      (buildClient "subscription" ⟨"http://" ++ rest, headers⟩ ru).wsClient =
        some ⟨"ws://" ++ rest, 3000⟩) ∧
    (∀ (rest : String) (headers : List (String × String)) (ru : Bool),
      (buildClient "subscription" ⟨"https://" ++ rest, headers⟩ ru).wsClient =
        some ⟨"wss://" ++ rest, 3000⟩) ∧
    (∀ (op : String) (endpoint : Endpoint) (ru : Bool), op ≠ "subscription" →
      (buildClient op endpoint ru).wsClient = none) := by
  refine ⟨?_, ?_, ?_⟩
  · intro rest headers ru
    obtain ⟨l⟩ := rest
    rfl
  · intro rest headers ru
    obtain ⟨l⟩ := rest
    rfl
  · intro op endpoint ru h
    simp [buildClient, h]

/-- C7 witness: `http://host/graphql` maps to `ws://host/graphql`,
`https://host/graphql` maps to `wss://host/graphql` with timeout 3000,
and a query adds no WebSocket sub-client. -/
theorem buildClient_ws_subclient_witness :
    (buildClient "subscription" ⟨"http://host/graphql", []⟩ true).wsClient =
      some ⟨"ws://host/graphql", 3000⟩ ∧
    (buildClient "subscription" ⟨"https://host/graphql", []⟩ true).wsClient =
      some ⟨"wss://host/graphql", 3000⟩ ∧
    (buildClient "query" ⟨"http://host/graphql", []⟩ true).wsClient = none :=
  ⟨buildClient_ws_subclient.1 "host/graphql" [] true,
   buildClient_ws_subclient.2.1 "host/graphql" [] true,
   buildClient_ws_subclient.2.2 "query" ⟨"http://host/graphql", []⟩ true
     (by decide)⟩

/-- C8: `buildClient` attaches the custom HTTPS agent, carrying the
process-wide `rejectUnauthorized` setting, exactly when the endpoint URL
scheme is `https`; for an `http` URL no agent is attached, and whenever
the protocol is not `https:` the whole built client is independent of the
`rejectUnauthorized` setting. -/
theorem buildClient_agent_iff_https :
    (∀ (rest : String) (headers : List (String × String)) (op : String)
        (ru : Bool),
      (buildClient op ⟨"https://" ++ rest, headers⟩ ru).fetchOptions.agent =
        some ⟨ru⟩) ∧
    (∀ (rest : String) (headers : List (String × String)) (op : String)
        (ru : Bool),
      (buildClient op ⟨"http://" ++ rest, headers⟩ ru).fetchOptions.agent =
        none) ∧
    (∀ (op : String) (endpoint : Endpoint) (ru₁ ru₂ : Bool),
      urlProtocol endpoint.url ≠ "https:" →
      buildClient op endpoint ru₁ = buildClient op endpoint ru₂) := by
  refine ⟨?_, ?_, ?_⟩
  · intro rest headers op ru
    obtain ⟨l⟩ := rest
    rfl
  · intro rest headers op ru
    obtain ⟨l⟩ := rest
    rfl
  · intro op endpoint ru₁ ru₂ h
    simp [buildClient, h]

/-- C8 witness: with verification disabled, an `https` endpoint gets an
agent with `rejectUnauthorized := false`, an `http` endpoint gets no
agent, and for the `http` endpoint the built client does not depend on
the setting. -/
theorem buildClient_agent_iff_https_witness :
    (buildClient "query" ⟨"https://host/graphql", []⟩ false).fetchOptions.agent =
      some ⟨false⟩ ∧
    (buildClient "query" ⟨"http://host/graphql", []⟩ false).fetchOptions.agent =
      none ∧
    buildClient "query" ⟨"http://host/graphql", []⟩ false =
      buildClient "query" ⟨"http://host/graphql", []⟩ true :=
  ⟨buildClient_agent_iff_https.1 "host/graphql" [] "query" false,
   buildClient_agent_iff_https.2.1 "host/graphql" [] "query" false,
   buildClient_agent_iff_https.2.2 "query" ⟨"http://host/graphql", []⟩ false true
     (by decide)⟩

/-- C1: the `Promise.all` dispatch of `executeOperation` always resolves
successfully with one outcome per classified operation; an exception
thrown while building or starting the client of one operation is caught
(logged only), and every sibling operation whose body succeeds is still
dispatched. -/
theorem executeOperation_isolates_failures
    (buildAndStart : String → Except String Unit) (ops : List String) :
    ∃ outcomes : List OpOutcome,
      executeOperation buildAndStart ops = Except.ok outcomes ∧
      outcomes.length = ops.length ∧
      (∀ (i : Nat) (op : String), ops[i]? = some op →
        (∃ u, buildAndStart op = .ok u) →
        outcomes[i]? = some .dispatched) ∧
      (∀ (i : Nat) (op : String), ops[i]? = some op →
        (∃ e, buildAndStart op = .error e) →
        outcomes[i]? = some .errorLogged) := by
  refine ⟨ops.map (runOperation buildAndStart), rfl, by simp, ?_, ?_⟩
  · rintro i op hi ⟨u, hu⟩
    simp [List.getElem?_map, hi, runOperation, hu]
  · rintro i op hi ⟨e, he⟩
    simp [List.getElem?_map, hi, runOperation, he]

/-- C1 witness: with a body that throws exactly on the second of three
operations, the call still resolves successfully and operations 1 and 3
are dispatched while operation 2 is only logged. -/
theorem executeOperation_isolates_failures_witness :
    ∃ outcomes : List OpOutcome,
      executeOperation
          (fun op => if op == "mutation" then .error "boom" else .ok ())
          ["query", "mutation", "query"] = Except.ok outcomes ∧
      outcomes[0]? = some .dispatched ∧
      outcomes[1]? = some .errorLogged ∧
      outcomes[2]? = some .dispatched := by
  obtain ⟨outcomes, hok, hlen, hd, he⟩ :=
    executeOperation_isolates_failures
      (fun op => if op == "mutation" then .error "boom" else .ok ())
      ["query", "mutation", "query"]
  exact ⟨outcomes, hok,
    hd 0 "query" rfl ⟨(), rfl⟩,
    he 1 "mutation" rfl ⟨"boom", rfl⟩,
    hd 2 "query" rfl ⟨(), rfl⟩⟩

/-- C9: a single invocation builds exactly one fresh client per
classified operation kind of the document — one per top-level operation
definition, each obtained by a fresh `buildClient` call on that
operation's kind. -/
theorem executor_one_client_per_operation (ast : DocumentNode)
    (endpoint : Endpoint) (ru : Bool) :
    (executionClients ast endpoint ru).length = countOperationDefinitions ast ∧
    (∀ (i : Nat) (k : String), (classifyOperations ast).1[i]? = some k →
      (executionClients ast endpoint ru)[i]? =
        some (buildClient k endpoint ru)) := by
  constructor
  · rw [executionClients, List.length_map, classifyOperations_eq]
    simpa using specClassifiedOperations_length ast
  · intro i k hk
    simp [executionClients, List.getElem?_map, hk]

/-- C9 witness: a document with a query and a subscription yields exactly
two clients, the i-th being the fresh build for the i-th classified
kind. -/
theorem executor_one_client_per_operation_witness :
    (executionClients
        ⟨[.operationDefinition "query" (some "Q"),
          .fragmentDefinition "F",
          .operationDefinition "subscription" (some "S")]⟩
        ⟨"http://host/graphql", []⟩ true).length = 2 ∧
    (executionClients
        ⟨[.operationDefinition "query" (some "Q"),
          .fragmentDefinition "F",
          .operationDefinition "subscription" (some "S")]⟩
        ⟨"http://host/graphql", []⟩ true)[1]? =
      some (buildClient "subscription" ⟨"http://host/graphql", []⟩ true) := by
  obtain ⟨hlen, hcl⟩ :=
    executor_one_client_per_operation
      ⟨[.operationDefinition "query" (some "Q"),
        .fragmentDefinition "F",
        .operationDefinition "subscription" (some "S")]⟩
      ⟨"http://host/graphql", []⟩ true
  exact ⟨hlen, hcl 1 "subscription" rfl⟩

end NetworkHelper
